import Mathlib

/-!
Verification of the claude-platform plugin runtime core.

This file gives a shallow embedding of the two core components of the
repository — `src/main_app/core/event_bus.py` (class `EventBus`) and
`src/main_app/core/module_loader.py` (classes `ModuleLoader`,
`ModuleReloadHandler`, dataclass `ModuleConfig`) — and proves or refutes the
behavioural claims about them.

Modelling conventions:
- Callback objects and module instances are identified by natural numbers;
  Python compares them by object identity / equality, which `Nat` equality
  mirrors.
- Event payloads (`data`) and per-module config dicts are opaque and are
  likewise modelled by `Nat` (wrapped in `Option` where Python allows `None`).
- Filesystem paths are modelled as their list of components (`List String`);
  `pathlib.Path` equality on normalized paths is list equality, and
  `Path.parent` is `List.dropLast`.
- External effects (the filesystem, `importlib` materialization, and the
  loaded modules' duck-typed `initialize` / `shutdown` hooks) are an explicit
  environment of oracle functions; a hook either returns or raises, and the
  loader only ever observes that distinction.
- Exceptions are embedded by making every fallible call site return the
  raised/returned distinction explicitly and translating each Python
  `try/except` boundary into the corresponding case split.
-/

namespace ClaudePlatform

/-! ## Event bus (`event_bus.py`)

`EventBus._subscribers` is a `defaultdict(list)` from topic strings to lists
of callbacks.  A missing key and an empty list are observationally identical
(lookups auto-create empty lists), so the state is embedded as a total
function from topics to callback lists, empty by default. -/

/-- Callback identity, standing for the Python callable object. -/
abbrev Cb := Nat

/-- Event topic (`event_type` in the source). -/
abbrev Topic := String

/-- Event payload, opaque to the bus. -/
abbrev Data := Nat

/-- State of `EventBus._subscribers`: topics to callback lists, default empty. -/
def Bus := Topic → List Cb

/-- The freshly constructed bus of `EventBus.__init__`: no subscribers. -/
def emptyBus : Bus := fun _ => []

/-- `EventBus.subscribe`: `self._subscribers[event_type].append(callback)`. -/
def subscribe (bus : Bus) (t : Topic) (c : Cb) : Bus :=
  fun s => if s = t then bus s ++ [c] else bus s

/-- Python `list.remove`: delete the first occurrence of the value. -/
def removeFirst (c : Cb) : List Cb → List Cb
  | [] => []
  | x :: xs => if x = c then xs else x :: removeFirst c xs

/-- `EventBus.unsubscribe`: remove `callback` from the topic's list only when
`callback in self._subscribers[event_type]`. -/
def unsubscribe (bus : Bus) (t : Topic) (c : Cb) : Bus :=
  fun s => if s = t then (if c ∈ bus t then removeFirst c (bus t) else bus t) else bus s

/-- `EventBus.clear`: Python tests `if event_type:` (truthiness), so both
`None` and the empty string select the clear-everything branch
(`self._subscribers.clear()`); any other topic has only its own list
cleared. -/
def clear (bus : Bus) (t : Option Topic) : Bus :=
  match t with
  | some s => if s = "" then emptyBus else fun u => if u = s then [] else bus u
  | none => emptyBus

/-- `EventBus.get_subscriber_count`: `len(self._subscribers[event_type])`. -/
def get_subscriber_count (bus : Bus) (t : Topic) : Nat :=
  (bus t).length

/-- Behaviour of the callbacks during a publish: invoking callback `c` with
payload `d` in bus state `b` yields the bus state after any re-entrant
`subscribe`/`unsubscribe` calls the callback makes, together with `true` when
the callback raises an exception.  Quantifying theorems over this behaviour
covers arbitrary subscriber code. -/
def CbRun := Cb → Data → Bus → Bus × Bool

/-- The delivery loop of `EventBus.publish`: `for callback in subscribers:`
with the body wrapped in `try/except` — a raising callback is logged and the
loop continues.  Returns the final bus state and the trace of invocations
`(callback, data)` actually performed, in order. -/
def deliver (run : CbRun) (d : Data) : List Cb → Bus → Bus × List (Cb × Data)
  | [], bus => (bus, [])
  | c :: rest, bus =>
    let r := run c d bus
    let tail := deliver run d rest r.1
    (tail.1, (c, d) :: tail.2)

/-- `EventBus.publish`: snapshot `self._subscribers[event_type].copy()` under
the lock, then run the delivery loop over the snapshot. -/
def publish (run : CbRun) (bus : Bus) (t : Topic) (d : Data) : Bus × List (Cb × Data) :=
  let snapshot := bus t
  deliver run d snapshot bus

/-- The delivery loop invokes exactly the listed callbacks, in order, each
once with the payload, whatever the callbacks do to the bus and whether or
not any of them raise. -/
theorem deliver_trace (run : CbRun) (d : Data) (l : List Cb) (bus : Bus) :
    (deliver run d l bus).2 = l.map (fun c => (c, d)) := by
  induction l generalizing bus with
  | nil => rfl
  | cons c rest ih => simp [deliver, ih]

/-- Claim C3: `publish` invokes each callback subscribed to the topic at the
moment of the call exactly once with the payload, in registration order; the
trace is exactly the snapshot, for every possible subscriber behaviour `run`,
so re-entrant subscribes/unsubscribes (which act on the threaded bus state,
not the snapshot) never affect an in-flight delivery. -/
theorem publish_snapshot_delivery (run : CbRun) (bus : Bus) (t : Topic) (d : Data) :
    (publish run bus t d).2 = (bus t).map (fun c => (c, d)) := by
  unfold publish
  exact deliver_trace run d (bus t) bus

/-- Claim C4: when some callback in the snapshot raises (its `run` flag is
`true`), every subsequently-ordered callback is still invoked with the
payload, and `publish` still completes with the full delivery trace — the
`try/except` around each call confines the exception, which never reaches
the publisher. -/
theorem publish_isolates_raising_callback (run : CbRun) (bus : Bus) (t : Topic) (d : Data)
    (l1 l2 : List Cb) (c : Cb) (hsnap : bus t = l1 ++ c :: l2)
    (hraises : ∀ b : Bus, (run c d b).2 = true) :
    (∀ c2 ∈ l2, (c2, d) ∈ (publish run bus t d).2) ∧
      (publish run bus t d).2 = (bus t).map (fun x => (x, d)) := by
  have htr : (publish run bus t d).2 = (bus t).map (fun x => (x, d)) :=
    deliver_trace run d (bus t) bus
  refine ⟨?_, htr⟩
  intro c2 hc2
  rw [htr, hsnap]
  simp
  exact Or.inr (Or.inr hc2)

/-- A concrete bus for witnesses: callback 1 then callback 2 on topic `tA`. -/
def tA : Topic := "alpha"

/-- A second topic, used to check frame conditions. -/
def tB : Topic := "beta"

/-- Concrete two-subscriber bus used by the witnesses. -/
def busW : Bus := subscribe (subscribe emptyBus tA 1) tA 2

/-- A subscriber behaviour in which every callback raises. -/
def runAllRaise : CbRun := fun _ _ b => (b, true)

/-- Witness for C4: on the concrete bus `busW` (snapshot `[1, 2]` on `tA`),
callback 1 raises, yet callback 2 is still invoked and the trace is the full
snapshot. -/
theorem publish_isolates_raising_callback_witness :
    (∀ c2 ∈ [2], (c2, (5 : Data)) ∈ (publish runAllRaise busW tA 5).2) ∧
      (publish runAllRaise busW tA 5).2 = (busW tA).map (fun x => (x, (5 : Data))) :=
  publish_isolates_raising_callback runAllRaise busW tA 5 [] [2] 1 (by decide)
    (fun _ => rfl)

/-- Removing the first occurrence of a present element shortens the list by
exactly one. -/
theorem removeFirst_length_of_mem (c : Cb) (l : List Cb) (h : c ∈ l) :
    (removeFirst c l).length + 1 = l.length := by
  induction l with
  | nil => cases h
  | cons x xs ih =>
    by_cases hx : x = c
    · simp [removeFirst, hx]
    · have hmem : c ∈ xs := by
        cases h with
        | head => exact absurd rfl hx
        | tail _ h2 => exact h2
      simp [removeFirst, hx, ih hmem]

/-- Claim C5: subscribe-then-unsubscribe of the same callback restores the
topic's subscriber count, and unsubscribing a callback that is not subscribed
leaves the whole bus state unchanged (a logged no-op). -/
theorem subscribe_unsubscribe_count (bus : Bus) (t : Topic) (c : Cb) :
    get_subscriber_count (unsubscribe (subscribe bus t c) t c) t
        = get_subscriber_count bus t
      ∧ (c ∉ bus t → unsubscribe bus t c = bus) := by
  constructor
  · have hsub : subscribe bus t c t = bus t ++ [c] := by
      simp [subscribe]
    have hmem : c ∈ subscribe bus t c t := by
      rw [hsub]; simp
    have hlen := removeFirst_length_of_mem c (subscribe bus t c t) hmem
    simp only [get_subscriber_count, unsubscribe, if_pos rfl, hmem, if_pos]
    rw [hsub] at hlen ⊢
    simp at hlen
    omega
  · intro habs
    funext s
    by_cases hs : s = t
    · subst hs
      simp [unsubscribe, habs]
    · simp [unsubscribe, hs]

/-- Witness for C5: on the concrete bus `busW`, callback 7 is not subscribed
to `tA`; the count round-trips and the no-op unsubscribe leaves the bus
unchanged. -/
theorem subscribe_unsubscribe_count_witness :
    get_subscriber_count (unsubscribe (subscribe busW tA 7) tA 7) tA
        = get_subscriber_count busW tA
      ∧ unsubscribe busW tA 7 = busW :=
  ⟨(subscribe_unsubscribe_count busW tA 7).1,
    (subscribe_unsubscribe_count busW tA 7).2 (by decide)⟩

/-- The empty-string topic, a legal subscription key in Python. -/
def tEmpty : Topic := ""

/-- Concrete bus exhibiting the `clear` truthiness bug: one subscriber on the
empty-string topic and one on `tA`. -/
def busC : Bus := subscribe (subscribe emptyBus tEmpty 9) tA 42

/-- Claim C8 (refutation): the empty string is a topic distinct from `tA` and
both have subscribers, yet `clear` on the empty-string topic also wipes
`tA`'s subscriber list — Python's `if event_type:` treats `""` like `None`
and clears every topic, contradicting the claim (and the method's own
docstring, which reserves clear-all for `None`). -/
theorem clear_empty_topic_clears_other_topics :
    busC tA = [42] ∧ busC tEmpty = [9] ∧ tEmpty ≠ tA ∧ clear busC (some tEmpty) tA = [] := by
  refine ⟨by decide, by decide, by decide, ?_⟩
  rfl

/-! ## Module loader (`module_loader.py`)

Python `dict`s preserve insertion order; they are embedded as association
lists with string keys.  Assignment to an existing key updates in place,
assignment to a fresh key appends, `del` removes the entry. -/

/-- A filesystem path as its normalized component list; `pathlib.Path`
equality is equality of these lists and `Path.parent` is `List.dropLast`. -/
abbrev FsPath := List String

/-- Dataclass `ModuleConfig`: name, path, enabled flag and optional opaque
config dict (`None` embedded as `none`). -/
structure ModuleConfig where
  name : String
  path : FsPath
  enabled : Bool := true
  config : Option Nat := none
deriving DecidableEq

/-- Association-list lookup, Python `d[k]` / `d.get(k)`. -/
def alGet {α : Type} (m : List (String × α)) (k : String) : Option α :=
  match m with
  | [] => none
  | (k0, v) :: rest => if k0 = k then some v else alGet rest k

/-- Association-list assignment, Python `d[k] = v`: update in place when the
key exists, append otherwise. -/
def alSet {α : Type} (m : List (String × α)) (k : String) (v : α) : List (String × α) :=
  match m with
  | [] => [(k, v)]
  | (k0, v0) :: rest => if k0 = k then (k0, v) :: rest else (k0, v0) :: alSet rest k v

/-- Association-list deletion, Python `del d[k]`. -/
def alErase {α : Type} (m : List (String × α)) (k : String) : List (String × α) :=
  match m with
  | [] => []
  | (k0, v0) :: rest => if k0 = k then alErase rest k else (k0, v0) :: alErase rest k

/-- Python `list(d.keys())`. -/
def alKeys {α : Type} (m : List (String × α)) : List String :=
  m.map (fun p => p.1)

theorem alGet_alSet_self {α : Type} (m : List (String × α)) (k : String) (v : α) :
    alGet (alSet m k v) k = some v := by
  induction m with
  | nil => simp [alSet, alGet]
  | cons p rest ih =>
    by_cases h : p.1 = k
    · simp [alSet, alGet, h]
    · simp [alSet, alGet, h, ih]

theorem alGet_alErase_self {α : Type} (m : List (String × α)) (k : String) :
    alGet (alErase m k) k = none := by
  induction m with
  | nil => rfl
  | cons p rest ih =>
    by_cases h : p.1 = k
    · simp [alErase, h, ih]
    · simp [alErase, alGet, h, ih]

theorem alKeys_alErase_not_mem {α : Type} (m : List (String × α)) (k : String) :
    k ∉ alKeys (alErase m k) := by
  induction m with
  | nil => simp [alErase, alKeys]
  | cons p rest ih =>
    by_cases h : p.1 = k
    · simpa [alErase, h] using ih
    · simp [alErase, alKeys, h]
      exact ⟨fun heq => h heq.symm, by simpa [alKeys] using ih⟩

/-- Oracle for everything outside the loader's own bookkeeping: the
filesystem, `importlib` materialization, and the duck-typed module hooks.
Module instances are `Nat` identities; a `...Raises` field records whether
the corresponding Python call raises an exception. -/
structure Env where
  pathExists : FsPath → Bool
  specOk : String → FsPath → Bool
  newInstance : String → FsPath → Nat
  execRaises : Nat → Bool
  hasInit : Nat → Bool
  initRaises : Nat → Bool
  hasShutdown : Nat → Bool
  shutdownRaises : Nat → Bool

/-- State of a `ModuleLoader` instance: `_modules`, `_module_configs`, the
process-wide `sys.modules` namespace registry it writes through, the
`_reload_context` contents (event-bus reference and per-module config map,
both initially absent/empty), and whether `_reload_callback` was supplied. -/
structure LoaderState where
  modules : List (String × Nat)
  moduleConfigs : List (String × ModuleConfig)
  sysModules : List (String × Nat)
  ctxBus : Option Nat
  ctxConfigs : List (String × Nat)
  reloadCallbackSet : Bool
deriving DecidableEq

/-- `ModuleLoader.load_module`: skip when disabled; fail when the path does
not exist or `spec_from_file_location` yields no usable spec; otherwise
create the instance, publish it into `sys.modules`, execute it (a raising
`exec_module` is caught by the enclosing `except` and leaves the polluted
`sys.modules` entry behind), then record the module and its config.
File-watch setup is omitted: it touches only `_watched_paths`/`_observer`,
which no claim mentions. -/
def load_module (env : Env) (st : LoaderState) (config : ModuleConfig) :
    LoaderState × Bool :=
  if config.enabled = false then (st, false)
  else if env.pathExists config.path = false then (st, false)
  else if env.specOk config.name config.path = false then (st, false)
  else
    let m := env.newInstance config.name config.path
    let st1 := { st with sysModules := alSet st.sysModules config.name m }
    if env.execRaises m then (st1, false)
    else
      ({ st1 with
          modules := alSet st1.modules config.name m,
          moduleConfigs := alSet st1.moduleConfigs config.name config }, true)

/-- `ModuleLoader.get_module`: `self._modules.get(module_name)`. -/
def get_module (st : LoaderState) (name : String) : Option Nat :=
  alGet st.modules name

/-- `ModuleLoader.get_loaded_modules`: `list(self._modules.keys())`. -/
def get_loaded_modules (st : LoaderState) : List String :=
  alKeys st.modules

/-- `ModuleLoader.unload_module`: not-loaded names fail fast; otherwise the
`try` block calls the `shutdown()` hook (when present) and then performs the
three deletions.  A raising hook aborts the block before any deletion and the
`except` handler returns `False`.  When `_modules` holds the name but
`_module_configs` does not, `del self._module_configs[module_name]` raises
`KeyError` after the first two deletions already happened. -/
def unload_module (env : Env) (st : LoaderState) (name : String) :
    LoaderState × Bool :=
  match alGet st.modules name with
  | none => (st, false)
  | some m =>
    if env.hasShutdown m && env.shutdownRaises m then (st, false)
    else if alGet st.moduleConfigs name = none then
      ({ st with
          sysModules := alErase st.sysModules name,
          modules := alErase st.modules name }, false)
    else
      ({ st with
          sysModules := alErase st.sysModules name,
          modules := alErase st.modules name,
          moduleConfigs := alErase st.moduleConfigs name }, true)

/-- Claim C6: `load_module` on a disabled record or a nonexistent source path
returns `False` and leaves the loader state — in particular `_modules`, hence
`get_loaded_modules` — exactly as it was, so a name absent before stays
absent. -/
theorem load_module_disabled_or_missing (env : Env) (st : LoaderState)
    (config : ModuleConfig)
    (h : config.enabled = false ∨ env.pathExists config.path = false) :
    load_module env st config = (st, false)
      ∧ (config.name ∉ get_loaded_modules st →
          config.name ∉ get_loaded_modules (load_module env st config).1) := by
  have hres : load_module env st config = (st, false) := by
    cases h with
    | inl hd => simp [load_module, hd]
    | inr hp =>
      by_cases hd : config.enabled = false
      · simp [load_module, hd]
      · simp [load_module, hd, hp]
  exact ⟨hres, fun habs => by rw [hres]; exact habs⟩

/-- Concrete environment for the loader witnesses: path `pGood` exists,
instance 11 is the materialized module, no hook raises anywhere. -/
def pGood : FsPath := ["mods", "good.py"]

/-- A path that does not exist in `envW`. -/
def pMissing : FsPath := ["mods", "missing.py"]

/-- Benign concrete environment: everything succeeds, no hooks raise. -/
def envW : Env where
  pathExists := fun p => p = pGood
  specOk := fun _ _ => true
  newInstance := fun _ _ => 11
  execRaises := fun _ => false
  hasInit := fun _ => true
  initRaises := fun _ => false
  hasShutdown := fun _ => true
  shutdownRaises := fun _ => false

/-- The empty loader state of `ModuleLoader.__init__` (with a reload
callback supplied). -/
def st0 : LoaderState where
  modules := []
  moduleConfigs := []
  sysModules := []
  ctxBus := none
  ctxConfigs := []
  reloadCallbackSet := true

/-- A disabled module record. -/
def cfgDisabled : ModuleConfig where
  name := "mdis"
  path := pGood
  enabled := false

/-- Witness for C6: loading the concrete disabled record leaves the empty
state unchanged and reports failure, and the name stays out of the loaded
list. -/
theorem load_module_disabled_or_missing_witness :
    load_module envW st0 cfgDisabled = (st0, false)
      ∧ cfgDisabled.name ∉ get_loaded_modules (load_module envW st0 cfgDisabled).1 := by
  have h := load_module_disabled_or_missing envW st0 cfgDisabled (Or.inl (by decide))
  exact ⟨h.1, h.2 (by decide)⟩

/-- Module instance whose `shutdown()` hook raises. -/
def envRaisingShutdown : Env where
  pathExists := fun _ => true
  specOk := fun _ _ => true
  newInstance := fun _ _ => 11
  execRaises := fun _ => false
  hasInit := fun _ => true
  initRaises := fun _ => false
  hasShutdown := fun _ => true
  shutdownRaises := fun m => m = 5

/-- Name of the concrete loaded module used below. -/
def nA : String := "mA"

/-- Record for the loaded module `mA`. -/
def cfgA : ModuleConfig where
  name := nA
  path := pGood

/-- Loader state with module `mA` loaded as instance 5. -/
def stLoadedA : LoaderState where
  modules := [(nA, 5)]
  moduleConfigs := [(nA, cfgA)]
  sysModules := [(nA, 5)]
  ctxBus := none
  ctxConfigs := []
  reloadCallbackSet := true

/-- Claim C7 (refutation): module `mA` is loaded as instance 5, whose
`shutdown()` hook raises; `unload_module` then returns `False` and removes
nothing — the name is still in `get_loaded_modules` and the instance is
still registered — contradicting the claim that a raising shutdown hook is
non-fatal and the instance is removed in all cases. -/
theorem unload_module_raising_shutdown_not_removed :
    unload_module envRaisingShutdown stLoadedA nA = (stLoadedA, false)
      ∧ get_loaded_modules stLoadedA = [nA]
      ∧ get_module stLoadedA nA = some 5 := by
  refine ⟨?_, by decide, by decide⟩
  rfl

/-- Claim C7 (amended): when the loaded module's `shutdown()` hook raises,
the exception is caught and logged but `unload_module` returns `False` and
removes nothing; when the hook is absent or returns normally (and the config
entry is present), the instance is removed from `_modules` and from
`sys.modules`, the name disappears from `get_loaded_modules`, and
`unload_module` returns `True`. -/
theorem unload_module_behaviour (env : Env) (st : LoaderState) (name : String)
    (m : Nat) (hm : alGet st.modules name = some m)
    (hc : alGet st.moduleConfigs name ≠ none) :
    ((env.hasShutdown m && env.shutdownRaises m) = true →
        unload_module env st name = (st, false))
      ∧ ((env.hasShutdown m && env.shutdownRaises m) = false →
          (unload_module env st name).2 = true
            ∧ name ∉ get_loaded_modules (unload_module env st name).1
            ∧ alGet (unload_module env st name).1.sysModules name = none) := by
  constructor
  · intro hraise
    simp [unload_module, hm, hraise]
  · intro hok
    have hval : unload_module env st name =
        ({ st with
            sysModules := alErase st.sysModules name,
            modules := alErase st.modules name,
            moduleConfigs := alErase st.moduleConfigs name }, true) := by
      simp [unload_module, hm, hok, hc]
    rw [hval]
    exact ⟨rfl, alKeys_alErase_not_mem st.modules name, alGet_alErase_self st.sysModules name⟩

/-- Witness for amended C7: in the benign environment instance 5's shutdown
hook does not raise, so unloading `mA` succeeds and removes it everywhere. -/
theorem unload_module_behaviour_witness :
    (unload_module envW stLoadedA nA).2 = true
      ∧ nA ∉ get_loaded_modules (unload_module envW stLoadedA nA).1
      ∧ alGet (unload_module envW stLoadedA nA).1.sysModules nA = none :=
  (unload_module_behaviour envW stLoadedA nA 5 (by decide) (by decide)).2 (by decide)

/-! ### Reload with rollback (`ModuleLoader.reload_module`) -/

/-- The rollback arm of `reload_module`'s outer `except` handler: when a
previous instance exists it is written back into both `sys.modules` and
`_modules`, and its `initialize` hook is re-invoked inside a nested
`try/except` whose handler only logs — so a raising re-initialize leaves the
restored instance installed.  Hook calls do not touch loader bookkeeping
state, so they contribute no state change here; with no previous instance
nothing is restored. -/
def reloadRollback (st : LoaderState) (name : String) (oldInst : Option Nat) :
    LoaderState :=
  match oldInst with
  | some old =>
    { st with
        sysModules := alSet st.sysModules name old,
        modules := alSet st.modules name old }
  | none => st

/-- `ModuleLoader.reload_module`: fail fast when the name has no stored
config; otherwise shut down the old instance (exceptions logged), drop the
`sys.modules` entry, materialize the new code (failed spec creation raises
`RuntimeError` before the `sys.modules` write; a raising `exec_module`
raises after it), run the new instance's `initialize` hook if present, and
only then swap `_modules` to the new instance and return `True`.  Any raise
in the materialize/initialize steps lands in the `except` handler, which
rolls back and returns `False`.  The `event_bus` / `module_config` arguments
flow only into the hook calls, which the environment abstracts. -/
def reload_module (env : Env) (st : LoaderState) (name : String)
    (eventBus : Option Nat) (moduleConfig : Option Nat) : LoaderState × Bool :=
  match alGet st.moduleConfigs name with
  | none => (st, false)
  | some config =>
    let oldInst := alGet st.modules name
    let st1 := { st with sysModules := alErase st.sysModules name }
    if env.specOk name config.path = false then
      (reloadRollback st1 name oldInst, false)
    else
      let newM := env.newInstance name config.path
      let st2 := { st1 with sysModules := alSet st1.sysModules name newM }
      if env.execRaises newM then (reloadRollback st2 name oldInst, false)
      else if env.hasInit newM && env.initRaises newM then
        (reloadRollback st2 name oldInst, false)
      else
        ({ st2 with modules := alSet st2.modules name newM }, true)

/-- Restoring an old instance makes it the registered module again. -/
theorem reloadRollback_get (st : LoaderState) (name : String) (old : Nat) :
    get_module (reloadRollback st name (some old)) name = some old
      ∧ alGet (reloadRollback st name (some old)).sysModules name = some old := by
  exact ⟨alGet_alSet_self st.modules name old, alGet_alSet_self st.sysModules name old⟩

/-- Claim C1: for a name with a stored config and a current active instance,
if materializing the new code fails (unusable spec or raising
`exec_module`) or the new instance's `initialize` hook raises, then
`reload_module` returns `False` and the old instance is installed again both
as `get_module`'s answer and in `sys.modules` — even when the old instance's
own re-initialize raises, since that raise is confined to the rollback's
inner `try/except`. -/
theorem reload_module_failure_restores_old (env : Env) (st : LoaderState)
    (name : String) (eventBus moduleConfig : Option Nat) (config : ModuleConfig)
    (old : Nat)
    (hc : alGet st.moduleConfigs name = some config)
    (hold : alGet st.modules name = some old)
    (hfail : env.specOk name config.path = false
      ∨ env.execRaises (env.newInstance name config.path) = true
      ∨ (env.hasInit (env.newInstance name config.path)
          && env.initRaises (env.newInstance name config.path)) = true) :
    (reload_module env st name eventBus moduleConfig).2 = false
      ∧ get_module (reload_module env st name eventBus moduleConfig).1 name = some old
      ∧ alGet (reload_module env st name eventBus moduleConfig).1.sysModules name
          = some old := by
  rcases hfail with hspec | hexec | hinit
  · simp [reload_module, hc, hold, hspec, get_module, reloadRollback, alGet_alSet_self]
  · by_cases hspec : env.specOk name config.path = false
    · simp [reload_module, hc, hold, hspec, get_module, reloadRollback, alGet_alSet_self]
    · simp [reload_module, hc, hold, hspec, hexec, get_module, reloadRollback,
        alGet_alSet_self]
  · by_cases hspec : env.specOk name config.path = false
    · simp [reload_module, hc, hold, hspec, get_module, reloadRollback, alGet_alSet_self]
    · by_cases hexec : env.execRaises (env.newInstance name config.path) = true
      · simp [reload_module, hc, hold, hspec, hexec, get_module, reloadRollback,
          alGet_alSet_self]
      · simp [reload_module, hc, hold, hspec, hexec, hinit, get_module, reloadRollback,
          alGet_alSet_self]

/-- Environment in which the freshly materialized instance 21 has an
`initialize` hook that raises, and the old instance 5's re-initialize raises
as well (so the witness covers the compounded-failure branch of C1). -/
def envReloadFails : Env where
  pathExists := fun _ => true
  specOk := fun _ _ => true
  newInstance := fun _ _ => 21
  execRaises := fun _ => false
  hasInit := fun _ => true
  initRaises := fun m => m = 21 || m = 5
  hasShutdown := fun _ => true
  shutdownRaises := fun _ => false

/-- Witness for C1: reloading `mA` (active instance 5) in `envReloadFails`
fails during the new instance's initialize, returns `False`, and leaves
instance 5 registered and in `sys.modules`. -/
theorem reload_module_failure_restores_old_witness :
    (reload_module envReloadFails stLoadedA nA none none).2 = false
      ∧ get_module (reload_module envReloadFails stLoadedA nA none none).1 nA = some 5
      ∧ alGet (reload_module envReloadFails stLoadedA nA none none).1.sysModules nA
          = some 5 :=
  reload_module_failure_restores_old envReloadFails stLoadedA nA none none cfgA 5
    (by decide) (by decide) (Or.inr (Or.inr (by decide)))

/-- Claim C2: for a name with a stored config, if the new code materializes
and its `initialize` hook succeeds (or is absent), `reload_module` returns
`True` and `get_module` subsequently returns the new instance — the active
instance is replaced. -/
theorem reload_module_success_installs_new (env : Env) (st : LoaderState)
    (name : String) (eventBus moduleConfig : Option Nat) (config : ModuleConfig)
    (hc : alGet st.moduleConfigs name = some config)
    (hspec : env.specOk name config.path = true)
    (hexec : env.execRaises (env.newInstance name config.path) = false)
    (hinit : (env.hasInit (env.newInstance name config.path)
        && env.initRaises (env.newInstance name config.path)) = false) :
    (reload_module env st name eventBus moduleConfig).2 = true
      ∧ get_module (reload_module env st name eventBus moduleConfig).1 name
          = some (env.newInstance name config.path)
      ∧ alGet (reload_module env st name eventBus moduleConfig).1.sysModules name
          = some (env.newInstance name config.path) := by
  have hred : reload_module env st name eventBus moduleConfig
      = ({ st with
            sysModules :=
              alSet (alErase st.sysModules name) name (env.newInstance name config.path),
            modules := alSet st.modules name (env.newInstance name config.path) }, true) := by
    simp [reload_module, hc, hspec, hexec, hinit]
  rw [hred]
  refine ⟨rfl, alGet_alSet_self st.modules name _, ?_⟩
  exact alGet_alSet_self (alErase st.sysModules name) name _

/-- Witness for C2: reloading `mA` in the benign environment succeeds and
installs the fresh instance 11 in place of instance 5. -/
theorem reload_module_success_installs_new_witness :
    (reload_module envW stLoadedA nA none none).2 = true
      ∧ get_module (reload_module envW stLoadedA nA none none).1 nA = some 11
      ∧ alGet (reload_module envW stLoadedA nA none none).1.sysModules nA = some 11 :=
  reload_module_success_installs_new envW stLoadedA nA none none cfgA
    (by decide) (by decide) (by decide) (by decide)

/-! ### Hot-reload by path (`ModuleLoader.reload_module_by_path` and
`ModuleReloadHandler.on_modified`) -/

/-- The loop of `reload_module_by_path`: iterate `_module_configs` in
insertion order and take the first record whose `Path(config.path)` equals
`Path(file_path)` — the comparison is on the whole path, not its parent
directory. -/
def findByPath : List (String × ModuleConfig) → FsPath → Option (String × ModuleConfig)
  | [], _ => none
  | (n, c) :: rest, p => if c.path = p then some (n, c) else findByPath rest p

/-- The per-module config chosen for a hot reload:
`module_configs.get(name, config.config)` over the reload context's map,
falling back to the stored record's own config. -/
def ctxConfigFor (st : LoaderState) (name : String) (config : ModuleConfig) :
    Option Nat :=
  match alGet st.ctxConfigs name with
  | some c => some c
  | none => config.config

/-- Observable outcome of one file-change notification: the loader state
afterwards, the `reload_module` invocations performed (name, event-bus
argument, config argument), and the `_reload_callback` invocations
performed (name, success). -/
structure WatchOutcome where
  state : LoaderState
  reloadCalls : List (String × Option Nat × Option Nat)
  callbackCalls : List (String × Bool)
deriving DecidableEq

/-- `ModuleLoader.reload_module_by_path`: on the first full-path match, pull
the event bus and per-module config out of `_reload_context`, run
`reload_module`, invoke `_reload_callback(name, success)` when a callback
was supplied, and stop (`break`); with no match, do nothing. -/
def reload_module_by_path (env : Env) (st : LoaderState) (filePath : FsPath) :
    WatchOutcome :=
  match findByPath st.moduleConfigs filePath with
  | none => ⟨st, [], []⟩
  | some (name, config) =>
    let eb := st.ctxBus
    let mc := ctxConfigFor st name config
    let r := reload_module env st name eb mc
    ⟨r.1, [(name, eb, mc)], if st.reloadCallbackSet then [(name, r.2)] else []⟩

/-- `pathlib.Path.suffix == ".py"` on one path component: the name ends in
`.py` and has a nonempty stem. -/
def isPySuffix (s : String) : Bool :=
  (s.data.reverse.take 3 == ['y', 'p', '.']) && Nat.blt 3 s.data.length

/-- The changed path's file name has the recognized `.py` extension. -/
def lastComponentIsPy (p : FsPath) : Bool :=
  match p.getLast? with
  | some n => isPySuffix n
  | none => false

/-- `ModuleReloadHandler.on_modified`: directory events are dropped, a
non-`.py` suffix is dropped, otherwise the notification is forwarded to
`reload_module_by_path`. -/
def on_modified (env : Env) (st : LoaderState) (isDirectory : Bool)
    (srcPath : FsPath) : WatchOutcome :=
  if isDirectory then ⟨st, [], []⟩
  else if lastComponentIsPy srcPath then reload_module_by_path env st srcPath
  else ⟨st, [], []⟩

/-- A `.py` file in the same directory as `cfgA`'s source but with a
different file name. -/
def pSibling : FsPath := ["mods", "other.py"]

/-- Claim C9 (refutation): `other.py` is a non-directory `.py` change whose
parent directory equals that of module `mA`'s source location, and a reload
callback is set — so the claim requires a reload of `mA` and exactly one
callback invocation.  The handler instead performs no reload and no callback
at all: the code matches on the full file path, not the parent directory. -/
theorem on_modified_ignores_parent_dir_match :
    pSibling.dropLast = cfgA.path.dropLast
      ∧ pSibling ≠ cfgA.path
      ∧ lastComponentIsPy pSibling = true
      ∧ stLoadedA.reloadCallbackSet = true
      ∧ on_modified envW stLoadedA false pSibling = ⟨stLoadedA, [], []⟩ := by
  decide

/-- Claim C9 (amended): on a non-directory `.py` modification, the handler
resolves the changed file to the module whose stored source path *equals*
the changed path (first match in registration order); it then calls
`reload_module` for that module with the event bus and the per-module config
drawn from the reload context, and invokes the reload callback (when set)
exactly once with `(name, success)`; a changed path matching no module's
source path is ignored — no reload, no callback. -/
theorem on_modified_resolves_exact_path (env : Env) (st : LoaderState)
    (p : FsPath) (hpy : lastComponentIsPy p = true) :
    (∀ name config, findByPath st.moduleConfigs p = some (name, config) →
        st.reloadCallbackSet = true →
        on_modified env st false p =
          ⟨(reload_module env st name st.ctxBus (ctxConfigFor st name config)).1,
            [(name, st.ctxBus, ctxConfigFor st name config)],
            [(name, (reload_module env st name st.ctxBus (ctxConfigFor st name config)).2)]⟩)
      ∧ (findByPath st.moduleConfigs p = none →
          on_modified env st false p = ⟨st, [], []⟩) := by
  constructor
  · intro name config hfind hcb
    simp [on_modified, hpy, reload_module_by_path, hfind, hcb]
  · intro hnone
    simp [on_modified, hpy, reload_module_by_path, hnone]

/-- Witness for amended C9: modifying `mA`'s own source file in the benign
environment triggers exactly one reload of `mA` with the context arguments
and exactly one callback invocation. -/
theorem on_modified_resolves_exact_path_witness :
    on_modified envW stLoadedA false pGood =
      ⟨(reload_module envW stLoadedA nA stLoadedA.ctxBus
          (ctxConfigFor stLoadedA nA cfgA)).1,
        [(nA, stLoadedA.ctxBus, ctxConfigFor stLoadedA nA cfgA)],
        [(nA, (reload_module envW stLoadedA nA stLoadedA.ctxBus
            (ctxConfigFor stLoadedA nA cfgA)).2)]⟩ :=
  (on_modified_resolves_exact_path envW stLoadedA pGood (by decide)).1 nA cfgA
    (by decide) (by decide)

/-! ### Concurrent reloads of the same name (claim C10)

`ModuleLoader.__init__` creates no lock of any kind and `reload_module`
acquires none, so nothing serializes two concurrent `reload_module` calls
for the same name.  Each call is abstracted into its three externally
ordered phases, each atomic at most at the Python bytecode level:
`readOld` (read the stored config and current instance, shut the old
instance down — steps 1–2), `materializeInit` (materialize the new code and
run its `initialize` hook — steps 3–4), and `writeActive` (swap `_modules`
to the new instance — step 5).  An execution of two concurrent calls is any
interleaving of the two phase sequences; with a per-name lock the only
admissible traces would run one sequence to completion before the other
starts. -/

/-- Identity of one of the two concurrent reload attempts. -/
inductive Tid where
  | ta
  | tb
deriving DecidableEq

/-- One atomic phase of a `reload_module` call by attempt `t`. -/
inductive RStep where
  | readOld (t : Tid)
  | materializeInit (t : Tid)
  | writeActive (t : Tid)
deriving DecidableEq

/-- The phase sequence of one unsynchronized `reload_module` call: no
lock-acquire or lock-release phases exist anywhere in the source. -/
def reloadSteps (t : Tid) : List RStep :=
  [RStep.readOld t, RStep.materializeInit t, RStep.writeActive t]

/-- `Interleaving xs ys zs`: trace `zs` is an order-preserving merge of the
two threads' step sequences `xs` and `ys` — the executions a preemptive
scheduler can produce when nothing blocks either thread. -/
inductive Interleaving : List RStep → List RStep → List RStep → Prop where
  | nil : Interleaving [] [] []
  | left {x : RStep} {xs ys zs : List RStep} :
      Interleaving xs ys zs → Interleaving (x :: xs) ys (x :: zs)
  | right {y : RStep} {xs ys zs : List RStep} :
      Interleaving xs ys zs → Interleaving xs (y :: ys) (y :: zs)

/-- Attempt `t` is in flight after prefix `p`: it has started (read the old
instance) but not yet completed its swap. -/
def inFlight (t : Tid) (p : List RStep) : Bool :=
  p.contains (RStep.readOld t) && !(p.contains (RStep.writeActive t))

/-- Which attempt's instance `_modules[name]` holds after prefix `p` (the
last writer), `none` while neither has written. -/
def activeOf (p : List RStep) : Option Tid :=
  p.foldl (fun acc s => match s with | RStep.writeActive u => some u | _ => acc) none

/-- Attempt `t`'s new instance has had `initialize` invoked within `p`. -/
def initDone (t : Tid) (p : List RStep) : Bool :=
  p.contains (RStep.materializeInit t)

/-- The racy schedule: both attempts read, both materialize-and-initialize,
then both write. -/
def raceTrace : List RStep :=
  [RStep.readOld Tid.ta, RStep.readOld Tid.tb, RStep.materializeInit Tid.ta,
    RStep.materializeInit Tid.tb, RStep.writeActive Tid.ta, RStep.writeActive Tid.tb]

/-- Claim C10 (violation exhibited): with no lock in the loader, the two
concurrent same-name reloads admit the interleaving `raceTrace`, in which
both attempts are in flight simultaneously (after four steps) — the spec
demands at most one per name — and after five steps both new instances have
been initialized while attempt `ta`'s instance is installed as active, i.e.
two initialized instances coexist with one active and the other about to
overwrite it. -/
theorem reload_module_unserialized_race :
    Interleaving (reloadSteps Tid.ta) (reloadSteps Tid.tb) raceTrace
      ∧ inFlight Tid.ta (raceTrace.take 4) = true
      ∧ inFlight Tid.tb (raceTrace.take 4) = true
      ∧ initDone Tid.ta (raceTrace.take 5) = true
      ∧ initDone Tid.tb (raceTrace.take 5) = true
      ∧ activeOf (raceTrace.take 5) = some Tid.ta := by
  refine ⟨?_, by decide, by decide, by decide, by decide, by decide⟩
  exact .left (.right (.left (.right (.left (.right .nil)))))

end ClaudePlatform
